import Mathlib

/-!
Verification of the Semantic Ticket Classification and Triage Engine
(`ticket_classifier.py`, `classification_training_data.py`) and the Ticket
Lifecycle Store (`conversation_manager.py`).

The sentence-embedding model is an external collaborator: the code only ever
consumes it through cosine similarities (dot products of unit vectors, values
in the interval from -1 to 1).  We therefore embed the classifier as a function
parameterized by similarity environments `isim` (intent key to similarity of
the query with that intent description) and `tsim` (type-catalog key to
similarity of the query with that type description); every structural claim is
settled for all such environments.  Rationals stand in for the floating-point
similarity scores.  Fallible code paths (the `None` dereference in
`_determine_type` when no entry scores strictly above the initial best score 0)
are modeled with `Option`.
-/

/-- Integer core of Python `round(x, 2)`: round `100 * x` half to even.
Python rounds floats half-to-even; we model that exactly on rationals,
working on the numerator and denominator so the function evaluates in the
kernel. -/
def roundHalfEven2 (x : ℚ) : ℤ :=
  let a : ℤ := 100 * x.num
  let b : ℤ := (x.den : ℤ)
  let n : ℤ := Int.fdiv a b
  let r : ℤ := a - n * b
  if 2 * r < b then n
  else if b < 2 * r then n + 1
  else if n % 2 = 0 then n else n + 1

/-- Model of Python `round(x, 2)` on rationals. -/
def round2 (x : ℚ) : ℚ := mkRat (roundHalfEven2 x) 100

section SortDesc

variable {α : Type} {β : Type} [LinearOrder β] (key : α → β)

/-- Insert `x` into `l` in front of the first element whose key is less than
or equal to `key x`.  This is the insertion step of a stable descending sort,
matching Python's stable `list.sort(key=..., reverse=True)`. -/
def insDescBy (x : α) : List α → List α
  | [] => [x]
  | y :: ys => if key y ≤ key x then x :: y :: ys else y :: insDescBy x ys

/-- Stable insertion sort, descending by `key`. -/
def sortDescBy : List α → List α
  | [] => []
  | x :: xs => insDescBy key x (sortDescBy xs)

theorem mem_insDescBy (x a : α) (l : List α) :
    a ∈ insDescBy key x l ↔ a = x ∨ a ∈ l := by
  induction l with
  | nil => simp [insDescBy]
  | cons y ys ih =>
    by_cases h : key y ≤ key x
    · simp [insDescBy, h]
    · simp only [insDescBy, if_neg h, List.mem_cons, ih]
      tauto

theorem mem_sortDescBy (a : α) (l : List α) :
    a ∈ sortDescBy key l ↔ a ∈ l := by
  induction l with
  | nil => simp [sortDescBy]
  | cons x xs ih =>
    simp only [sortDescBy, mem_insDescBy, List.mem_cons, ih]

theorem pairwise_insDescBy (x : α) (l : List α)
    (h : l.Pairwise (fun a b => key b ≤ key a)) :
    (insDescBy key x l).Pairwise (fun a b => key b ≤ key a) := by
  induction l with
  | nil => simp [insDescBy]
  | cons y ys ih =>
    rcases List.pairwise_cons.mp h with ⟨hy, hys⟩
    by_cases hc : key y ≤ key x
    · simp only [insDescBy, if_pos hc]
      refine List.pairwise_cons.mpr ⟨?_, h⟩
      intro b hb
      rcases List.mem_cons.mp hb with rfl | hb
      · exact hc
      · exact le_trans (hy b hb) hc
    · simp only [insDescBy, if_neg hc]
      refine List.pairwise_cons.mpr ⟨?_, ih hys⟩
      intro b hb
      rcases (mem_insDescBy key x b ys).mp hb with rfl | hb
      · exact le_of_not_le hc
      · exact hy b hb

theorem pairwise_sortDescBy (l : List α) :
    (sortDescBy key l).Pairwise (fun a b => key b ≤ key a) := by
  induction l with
  | nil => simp [sortDescBy]
  | cons x xs ih => exact pairwise_insDescBy key x _ ih

theorem filter_insDescBy_of_ne (x : α) (l : List α) (c : β) (hx : key x ≠ c) :
    (insDescBy key x l).filter (fun a => decide (key a = c)) =
      l.filter (fun a => decide (key a = c)) := by
  induction l with
  | nil => simp [insDescBy, hx]
  | cons y ys ih =>
    by_cases hc : key y ≤ key x
    · simp [insDescBy, hc, List.filter_cons, hx]
    · simp only [insDescBy, if_neg hc, List.filter_cons, ih]

theorem filter_insDescBy_of_eq (x : α) (l : List α) (c : β) (hx : key x = c) :
    (insDescBy key x l).filter (fun a => decide (key a = c)) =
      x :: l.filter (fun a => decide (key a = c)) := by
  subst hx
  induction l with
  | nil => simp [insDescBy]
  | cons y ys ih =>
    by_cases hc : key y ≤ key x
    · simp [insDescBy, hc, List.filter_cons]
    · have hy : ¬ (key y = key x) := fun h => hc (le_of_eq h)
      simp only [insDescBy, if_neg hc, List.filter_cons, ih]
      simp [hy]

/-- Stability of the descending sort: elements sharing any key value keep
their original relative order. -/
theorem sortDescBy_stable (l : List α) (c : β) :
    (sortDescBy key l).filter (fun a => decide (key a = c)) =
      l.filter (fun a => decide (key a = c)) := by
  induction l with
  | nil => rfl
  | cons x xs ih =>
    by_cases hx : key x = c
    · rw [sortDescBy, filter_insDescBy_of_eq key x _ c hx, ih]
      simp [List.filter_cons, hx]
    · rw [sortDescBy, filter_insDescBy_of_ne key x _ c hx, ih]
      simp [List.filter_cons, hx]

end SortDesc

/-!
Entity extraction (`TicketClassifier._extract_entities_regex`).

Each Python regex is specialized to a deterministic search procedure with
`re.search` semantics: candidate start positions are tried left to right, and
at one position the pattern's own backtracking order is followed (alternatives
in written order, greedy quantifiers longest first).  `IGNORECASE` is modeled
by lowercasing the subject character before comparing with the (lowercase)
pattern literal.  `\w` (for the `\b` boundary) is modeled as ASCII
alphanumerics plus underscore, which is exact for the ASCII vocabulary these
patterns quantify over.
-/

/-- Python `\s` (ASCII range). -/
def isSpaceChar (c : Char) : Bool :=
  c == ' ' || c == '\t' || c == '\n' || c == '\r' || c == '\x0b' || c == '\x0c'

/-- Python `\w`, restricted to ASCII as explained above. -/
def isWordChar (c : Char) : Bool := c.isAlphanum || c == '_'

/-- Whether an optional neighboring character counts as a word character
(`none` is the start or end of the subject, never a word character). -/
def isWordOpt : Option Char → Bool
  | none => false
  | some c => isWordChar c

/-- Case-insensitive literal match: consume `pat` (given lowercase) from the
front of `cs`, returning the remainder. -/
def matchCI : List Char → List Char → Option (List Char)
  | [], cs => some cs
  | _ :: _, [] => none
  | p :: ps, c :: cs => if c.toLower == p then matchCI ps cs else none

/-- Case-insensitive literal match that also returns the original (not
lowercased) consumed characters, for `group(0)` captures. -/
def matchCIKeep : List Char → List Char → Option (List Char × List Char)
  | [], cs => some ([], cs)
  | _ :: _, [] => none
  | p :: ps, c :: cs =>
    if c.toLower == p then (matchCIKeep ps cs).map (fun r => (c :: r.1, r.2))
    else none

/-- Trailing `\b` after an alternative that ends in a word character: the next
character must be absent or a non-word character. -/
def boundaryAfterWord : List Char → Bool
  | [] => true
  | t :: _ => !isWordChar t

/-- At one start position, try each alternative of a `\b(w1|w2|...)\b` group
in written order; every alternative starts and ends with a word character.
Returns the (lowercase) alternative that matched, i.e. `group(1).lower()`. -/
def tryAlts (alts : List (List Char)) (cs : List Char) : Option (List Char) :=
  match alts with
  | [] => none
  | a :: rest =>
    match matchCI a cs with
    | some tail => if boundaryAfterWord tail then some a else tryAlts rest cs
    | none => tryAlts rest cs

/-- Model of `re.search` for `\b(w1|w2|...)\b` with `IGNORECASE`: positions left to
right; the leading `\b` holds iff the previous character is absent or
non-word (each alternative starts with a word character). -/
def altSearch (alts : List (List Char)) : Option Char → List Char → Option (List Char)
  | _, [] => none
  | prev, c :: cs =>
    if !isWordOpt prev then
      match tryAlts alts (c :: cs) with
      | some a => some a
      | none => altSearch alts (some c) cs
    else altSearch alts (some c) cs

/-- Pattern 1 of the amount extractor: `₹\s*(\d+)`, returning group 1. -/
def searchRupeeSymbol : List Char → Option (List Char)
  | [] => none
  | c :: cs =>
    if c == '₹' then
      let rest := cs.dropWhile isSpaceChar
      let ds := rest.takeWhile Char.isDigit
      if ds.isEmpty then searchRupeeSymbol cs else some ds
    else searchRupeeSymbol cs

/-- Patterns `(\d+)\s*rupees?` and `(\d+)\s*rs`: a maximal digit run, then
`\s*`, then the literal `lit` (backtracking into the digit run or the spaces
cannot succeed, so the greedy parse is the only one).  Returns group 1. -/
def searchDigitsThen (lit : List Char) : List Char → Option (List Char)
  | [] => none
  | c :: cs =>
    if c.isDigit then
      let ds := (c :: cs).takeWhile Char.isDigit
      let rest := ((c :: cs).dropWhile Char.isDigit).dropWhile isSpaceChar
      match matchCI lit rest with
      | some _ => some ds
      | none => searchDigitsThen lit cs
    else searchDigitsThen lit cs

/-- Pattern `[Rr]s\.?\s*(\d+)` (with `IGNORECASE`), returning group 1. -/
def searchRsAmount : List Char → Option (List Char)
  | [] => none
  | c :: cs =>
    if c.toLower == 'r' then
      match cs with
      | s :: rest1 =>
        if s.toLower == 's' then
          let rest2 := match rest1 with
            | '.' :: t => t
            | _ => rest1
          let rest3 := rest2.dropWhile isSpaceChar
          let ds := rest3.takeWhile Char.isDigit
          if ds.isEmpty then searchRsAmount cs else some ds
        else searchRsAmount cs
      | [] => none
    else searchRsAmount cs

/-- The four money patterns in written order; the first pattern with a match
anywhere in the string wins (`for pattern in money_patterns: ... break`). -/
def searchAmount (cs : List Char) : Option (List Char) :=
  match searchRupeeSymbol cs with
  | some ds => some ds
  | none =>
    match searchDigitsThen "rupee".data cs with
    | some ds => some ds
    | none =>
      match searchRsAmount cs with
      | some ds => some ds
      | none => searchDigitsThen "rs".data cs

def serviceAlts : List (List Char) :=
  ["data".data, "internet".data, "call".data, "sms".data, "roaming".data,
   "network".data, "hotspot".data, "wifi".data]

def issueAlts : List (List Char) :=
  ["slow".data, "not working".data, "stopped".data, "failed".data,
   "down".data, "problem".data, "issue".data, "nahi chal raha".data,
   "band".data]

def timeframeAlts : List (List Char) :=
  ["today".data, "yesterday".data, "last week".data, "since morning".data,
   "this month".data, "aaj".data, "kal".data]

def carrierAlts : List (List Char) :=
  ["jio".data, "airtel".data, "vi".data, "vodafone".data, "bsnl".data]

def tierAlts : List (List Char) :=
  ["basic".data, "smart".data, "premium".data, "value".data, "max".data,
   "super".data]

/-- After the carrier of `\b(jio|...)\s*(basic|...)?\b` and some consumed
spaces: try the tier alternatives in order (the optional group is greedy, so
a present tier is tried before the empty one), then the empty tier followed
by the final `\b`.  `prev` is the character just before the current
position; `consumed` holds the original characters matched so far
(`group(0)` keeps the original case). -/
def tryTiersAux : List (List Char) → List Char → List Char → Option (List Char)
  | [], _, _ => none
  | t :: ts, consumed, rest =>
    match matchCIKeep t rest with
    | some (orig, tail) =>
      if boundaryAfterWord tail then some (consumed ++ orig)
      else tryTiersAux ts consumed rest
    | none => tryTiersAux ts consumed rest

/-- Combination of the tier attempt and the empty-tier boundary test at one
space count (see the previous definition for the tier step). -/
def tryTierOrEmpty (prev : Char) (consumed : List Char) (rest : List Char) :
    Option (List Char) :=
  match tryTiersAux tierAlts consumed rest with
  | some m => some m
  | none =>
    if (isWordChar prev) != (isWordOpt rest.head?) then some consumed else none

/-- Backtracking over the greedy `\s*` of the plan pattern: deeper (more
spaces consumed) parses are tried before shallower ones. -/
def planSpaces (prev : Char) (consumed : List Char) : List Char → Option (List Char)
  | [] => tryTierOrEmpty prev consumed []
  | c :: cs =>
    if isSpaceChar c then
      match planSpaces c (consumed ++ [c]) cs with
      | some m => some m
      | none => tryTierOrEmpty prev consumed (c :: cs)
    else tryTierOrEmpty prev consumed (c :: cs)

/-- At one start position, the carrier alternation of the plan pattern in
written order; on failure of the whole remainder, the next alternative. -/
def tryCarriers (alts : List (List Char)) (cs : List Char) : Option (List Char) :=
  match alts with
  | [] => none
  | a :: rest =>
    match matchCIKeep a cs with
    | some (orig, tail) =>
      match planSpaces (orig.getLastD 'x') orig tail with
      | some m => some m
      | none => tryCarriers rest cs
    | none => tryCarriers rest cs

/-- Model of `re.search` for the plan pattern with carrier and optional tier,
returning `group(0)` in original case. -/
def planSearch : Option Char → List Char → Option (List Char)
  | _, [] => none
  | prev, c :: cs =>
    if !isWordOpt prev then
      match tryCarriers carrierAlts (c :: cs) with
      | some m => some m
      | none => planSearch (some c) cs
    else planSearch (some c) cs

/-- The entity bag: at most one value per kind by construction, mirroring the
Python dict written once per key with `break` / single `re.search`. -/
structure EntityBag where
  amount : Option String
  service : Option String
  issue : Option String
  plan_name : Option String
  timeframe : Option String
deriving DecidableEq

/-- Model of `TicketClassifier._extract_entities_regex`. -/
def extract_entities_regex (query : String) : EntityBag :=
  let cs := query.data
  { amount := (searchAmount cs).map String.mk
    service := (altSearch serviceAlts none cs).map String.mk
    issue := (altSearch issueAlts none cs).map String.mk
    plan_name := (planSearch none cs).map String.mk
    timeframe := (altSearch timeframeAlts none cs).map String.mk }

/-!
Intent catalog and multi-label intent detection
(`TicketClassifier._compute_intent_embeddings`, `_detect_intents`).
-/

/-- The eight intent keys, in the declaration (= dict insertion) order of
`_compute_intent_embeddings`. -/
def intentKeys : List String :=
  ["BALANCE_QUERY", "NETWORK_ISSUE", "RECHARGE_REQUEST", "BILLING_COMPLAINT",
   "SUPPORT_REQUEST", "OFFER_INQUIRY", "PLAN_CHANGE", "TECHNICAL_SUPPORT"]

/-- One detected intent: a label and the rounded similarity. -/
structure Intent where
  label : String
  confidence : ℚ
deriving DecidableEq

/-- The `results` list of `_detect_intents` before sorting: catalog order,
keeping every intent whose raw similarity is at least the threshold, with
`confidence = round(similarity, 2)`. -/
def preIntents (isim : String → ℚ) (threshold : ℚ) : List Intent :=
  (intentKeys.filter (fun k => decide (threshold ≤ isim k))).map
    (fun k => Intent.mk k (round2 (isim k)))

/-- Model of `TicketClassifier._detect_intents` (default threshold 0.25):
filter by raw similarity, then `results.sort(key=confidence, reverse=True)`
(a stable descending sort). -/
def detect_intents (isim : String → ℚ) (threshold : ℚ) : List Intent :=
  sortDescBy Intent.confidence (preIntents isim threshold)

/-!
Type catalog and best-type resolution (`classification_training_data.py`,
`TicketClassifier._compute_type_embeddings`, `_determine_type`).
-/

/-- One entry of `self.type_embeddings`: the dict key (`QUERY_*` /
`GRIEVANCE_*`), super-category, bare type key, human-readable name, owning
department and (grievances only) severity. -/
structure TypeEntry where
  key : String
  category : String
  type : String
  name : String
  department : String
  severity : Option String
deriving DecidableEq

/-- The 8 query types followed by the 12 grievance types, in dict insertion
order (`QUERY_TYPES` then `GRIEVANCE_TYPES`). -/
def type_catalog : List TypeEntry :=
  [⟨"QUERY_BALANCE_CHECK", "QUERY", "BALANCE_CHECK", "Balance Check",
    "Customer Support", none⟩,
   ⟨"QUERY_PLAN_INQUIRY", "QUERY", "PLAN_INQUIRY", "Plan Information",
    "Customer Support", none⟩,
   ⟨"QUERY_RECHARGE_INQUIRY", "QUERY", "RECHARGE_INQUIRY", "Recharge Plans",
    "Sales", none⟩,
   ⟨"QUERY_OFFER_INQUIRY", "QUERY", "OFFER_INQUIRY", "Offers & Promotions",
    "Sales", none⟩,
   ⟨"QUERY_VALIDITY_INQUIRY", "QUERY", "VALIDITY_INQUIRY", "Validity Check",
    "Customer Support", none⟩,
   ⟨"QUERY_USAGE_INQUIRY", "QUERY", "USAGE_INQUIRY", "Usage History",
    "Customer Support", none⟩,
   ⟨"QUERY_CUSTOMER_CARE_INQUIRY", "QUERY", "CUSTOMER_CARE_INQUIRY",
    "Contact Information", "Customer Support", none⟩,
   ⟨"QUERY_SERVICE_ACTIVATION", "QUERY", "SERVICE_ACTIVATION",
    "Service Activation", "Technical Support", none⟩,
   ⟨"GRIEVANCE_NETWORK_CONNECTIVITY", "GRIEVANCE", "NETWORK_CONNECTIVITY",
    "Network Connectivity Issue", "Network Operations", some "HIGH"⟩,
   ⟨"GRIEVANCE_SLOW_INTERNET", "GRIEVANCE", "SLOW_INTERNET",
    "Slow Internet Speed", "Network Operations", some "MEDIUM"⟩,
   ⟨"GRIEVANCE_BILLING_DISPUTE", "GRIEVANCE", "BILLING_DISPUTE",
    "Billing Complaint", "Billing Department", some "HIGH"⟩,
   ⟨"GRIEVANCE_RECHARGE_FAILURE", "GRIEVANCE", "RECHARGE_FAILURE",
    "Recharge Failed", "Technical Support", some "HIGH"⟩,
   ⟨"GRIEVANCE_CALL_DROPS", "GRIEVANCE", "CALL_DROPS", "Call Dropping",
    "Network Operations", some "MEDIUM"⟩,
   ⟨"GRIEVANCE_DATA_NOT_WORKING", "GRIEVANCE", "DATA_NOT_WORKING",
    "Mobile Data Not Working", "Technical Support", some "HIGH"⟩,
   ⟨"GRIEVANCE_SIM_ISSUE", "GRIEVANCE", "SIM_ISSUE", "SIM Card Problem",
    "Technical Support", some "HIGH"⟩,
   ⟨"GRIEVANCE_PORT_REQUEST_ISSUE", "GRIEVANCE", "PORT_REQUEST_ISSUE",
    "Porting Problem", "Customer Support", some "MEDIUM"⟩,
   ⟨"GRIEVANCE_SERVICE_DEACTIVATION", "GRIEVANCE", "SERVICE_DEACTIVATION",
    "Unwanted Service Deactivation", "Technical Support", some "MEDIUM"⟩,
   ⟨"GRIEVANCE_POOR_CALL_QUALITY", "GRIEVANCE", "POOR_CALL_QUALITY",
    "Voice Quality Issue", "Network Operations", some "MEDIUM"⟩,
   ⟨"GRIEVANCE_APP_NOT_WORKING", "GRIEVANCE", "APP_NOT_WORKING",
    "Mobile App Issue", "Technical Support", some "LOW"⟩,
   ⟨"GRIEVANCE_UNWANTED_CHARGES", "GRIEVANCE", "UNWANTED_CHARGES",
    "Unauthorized Charges", "Billing Department", some "HIGH"⟩]

/-- The bare type keys of the catalog (`QUERY_TYPES` and `GRIEVANCE_TYPES`
dictionary keys). -/
def typeKeys : List String := type_catalog.map TypeEntry.type

/-- The result dict of `_determine_type`. -/
structure TypeResult where
  category : String
  type : String
  type_name : String
  department : String
  confidence : ℚ
deriving DecidableEq

/-- The loop of `_determine_type`: `best_match = None; best_score = 0;` then
update whenever `similarity > best_score` (strictly). -/
def bestTypeLoop (tsim : String → ℚ) :
    List TypeEntry → Option TypeEntry → ℚ → Option TypeEntry × ℚ
  | [], best, score => (best, score)
  | e :: es, best, score =>
    if score < tsim e.key then bestTypeLoop tsim es (some e) (tsim e.key)
    else bestTypeLoop tsim es best score

/-- Model of `TicketClassifier._determine_type`.  Returns `none` exactly when
the Python code would dereference `best_match = None` (every similarity at or
below the initial `best_score = 0`). -/
def determine_type (tsim : String → ℚ) : Option TypeResult :=
  match bestTypeLoop tsim type_catalog none 0 with
  | (none, _) => none
  | (some e, s) => some ⟨e.category, e.type, e.name, e.department, round2 s⟩

/-!
Routing and the classification orchestrator
(`TicketClassifier._get_routing`, `classify_query`).
-/

/-- The static `routing_map` of `_get_routing`. -/
def routing_map : List (String × String) :=
  [("NETWORK_ISSUE", "technical_support"),
   ("TECHNICAL_SUPPORT", "technical_support"),
   ("BILLING_COMPLAINT", "billing_team"),
   ("RECHARGE_REQUEST", "automated_system"),
   ("BALANCE_QUERY", "automated_system"),
   ("PLAN_CHANGE", "sales_team"),
   ("OFFER_INQUIRY", "sales_team"),
   ("SUPPORT_REQUEST", "customer_support")]

/-- Model of `TicketClassifier._get_routing`.  The `category` argument is
accepted and ignored, exactly as in the source. -/
def get_routing (intents : List Intent) (category : String) : String :=
  match intents with
  | [] => "general_support"
  | i :: _ => (routing_map.lookup i.label).getD "general_support"

/-- The result dict of `classify_query`. -/
structure ClassificationResult where
  intents : List Intent
  entities : EntityBag
  category : String
  type : String
  type_name : String
  department : String
  confidence : ℚ
  tags : List String
  routing : String
  primary_intent : String
  original_query : String
deriving DecidableEq

/-- Model of `TicketClassifier.classify_query`: intent detection at threshold
0.25, regex entity extraction, best-type resolution, routing lookup, then
assembly of the result dict.  `none` models the `TypeError` raised inside
`_determine_type` when no type scores strictly above 0. -/
def classify_query (isim tsim : String → ℚ) (query : String) :
    Option ClassificationResult :=
  let intents := detect_intents isim (mkRat 1 4)
  let entities := extract_entities_regex query
  match determine_type tsim with
  | none => none
  | some t =>
    some
      { intents := intents
        entities := entities
        category := t.category
        type := t.type
        type_name := t.type_name
        department := t.department
        confidence := t.confidence
        tags := intents.map Intent.label
        routing := get_routing intents t.category
        primary_intent := match intents with
          | [] => "UNKNOWN"
          | i :: _ => i.label
        original_query := query }

/-!
Ticket Lifecycle Store (`conversation_manager.py`).  The SQL statements are
embedded by their denotation over in-memory tables: an `INSERT` appends a row
holding exactly the columns the statement sets, and the filtered `SELECT`s
are the corresponding filter / join / sort over row lists.
-/

/-- The columns set by the `INSERT INTO queries|grievances` statement of
`create_record` (id and `created_at` are produced by the database engine and
are not part of the statement). -/
structure TicketRow where
  conversation_id : Nat
  user_id : Nat
  phone : String
  type : String
  department : String
  description : String
  extracted_entities : EntityBag
  status : String
deriving DecidableEq

/-- The two tables `create_record` writes to. -/
structure Store where
  queries : List TicketRow
  grievances : List TicketRow
deriving DecidableEq

/-- Model of `ConversationManager.create_record`: branch on
`classification_result['category']` (anything other than `'GRIEVANCE'` takes
the `else` branch, as in the source), append one row with the
category-determined status, and return the new store with the row id. -/
def create_record (st : Store) (conversation_id user_id : Nat) (phone : String)
    (cr : ClassificationResult) : Store × Nat :=
  let row : String → TicketRow := fun status =>
    ⟨conversation_id, user_id, phone, cr.type_name, cr.department,
     cr.original_query, cr.entities, status⟩
  if cr.category = "GRIEVANCE" then
    (⟨st.queries, st.grievances ++ [row "open"]⟩, st.grievances.length + 1)
  else
    (⟨st.queries ++ [row "resolved"], st.grievances⟩, st.queries.length + 1)

/-- A stored `grievances` row (columns used by `get_grievances`). -/
structure GrievanceRow where
  grievance_id : Nat
  user_id : Nat
  type : String
  department : String
  description : String
  status : String
  created_at : Int
  extracted_entities : String
deriving DecidableEq

/-- A stored `queries` row (columns used by `get_queries`). -/
structure QueryRow where
  query_id : Nat
  user_id : Nat
  type : String
  department : String
  description : String
  status : String
  created_at : Int
  extracted_entities : String
deriving DecidableEq

/-- A `users` row (columns used by the joins). -/
structure UserRow where
  user_id : Nat
  name : String
  phone : String
deriving DecidableEq

/-- The selected columns of `get_grievances`. -/
structure GrievanceView where
  grievance_id : Nat
  type : String
  department : String
  description : String
  status : String
  created_at : Int
  extracted_entities : String
  name : String
  phone : String
deriving DecidableEq

/-- The selected columns of `get_queries`. -/
structure QueryView where
  query_id : Nat
  type : String
  department : String
  description : String
  status : String
  created_at : Int
  extracted_entities : String
  name : String
  phone : String
deriving DecidableEq

/-- Join `FROM grievances g JOIN users u ON g.user_id = u.user_id`. -/
def grievanceJoin (gs : List GrievanceRow) (us : List UserRow) :
    List GrievanceView :=
  gs.flatMap fun g =>
    (us.filter (fun u => u.user_id == g.user_id)).map fun u =>
      ⟨g.grievance_id, g.type, g.department, g.description, g.status,
       g.created_at, g.extracted_entities, u.name, u.phone⟩

/-- Join `FROM queries q JOIN users u ON q.user_id = u.user_id`. -/
def queryJoin (qs : List QueryRow) (us : List UserRow) : List QueryView :=
  qs.flatMap fun q =>
    (us.filter (fun u => u.user_id == q.user_id)).map fun u =>
      ⟨q.query_id, q.type, q.department, q.description, q.status,
       q.created_at, q.extracted_entities, u.name, u.phone⟩

/-- The conjunctive `WHERE` clause built by `get_grievances`.  A filter is
appended only when its Python argument is truthy, so `none` and the empty
string add no condition. -/
def grievanceKeep (department : Option String) (start_date end_date : Option Int)
    (status : Option String) (v : GrievanceView) : Bool :=
  (match department with
   | none => true
   | some d => if d == "" then true else v.department == d) &&
  (match start_date with
   | none => true
   | some s => decide (s ≤ v.created_at)) &&
  (match end_date with
   | none => true
   | some e => decide (v.created_at ≤ e)) &&
  (match status with
   | none => true
   | some st => if st == "" then true else v.status == st)

/-- The conjunctive `WHERE` clause built by `get_queries`. -/
def queryKeep (department : Option String) (start_date end_date : Option Int)
    (status : Option String) (v : QueryView) : Bool :=
  (match department with
   | none => true
   | some d => if d == "" then true else v.department == d) &&
  (match start_date with
   | none => true
   | some s => decide (s ≤ v.created_at)) &&
  (match end_date with
   | none => true
   | some e => decide (v.created_at ≤ e)) &&
  (match status with
   | none => true
   | some st => if st == "" then true else v.status == st)

/-- Model of `ConversationManager.get_grievances`: join, conjunctive optional
filters, `ORDER BY g.created_at DESC`. -/
def get_grievances (gs : List GrievanceRow) (us : List UserRow)
    (department : Option String) (start_date end_date : Option Int)
    (status : Option String) : List GrievanceView :=
  sortDescBy GrievanceView.created_at
    ((grievanceJoin gs us).filter (grievanceKeep department start_date end_date status))

/-- Model of `ConversationManager.get_queries`: join, conjunctive optional
filters, `ORDER BY q.created_at DESC`. -/
def get_queries (qs : List QueryRow) (us : List UserRow)
    (department : Option String) (start_date end_date : Option Int)
    (status : Option String) : List QueryView :=
  sortDescBy QueryView.created_at
    ((queryJoin qs us).filter (queryKeep department start_date end_date status))

/-!
Helper lemmas about the classifier.
-/

/-- Invert a successful `classify_query`: the result is the assembled record
over the three independent passes. -/
theorem classify_query_some (isim tsim : String → ℚ) (q : String)
    (r : ClassificationResult) (h : classify_query isim tsim q = some r) :
    ∃ t, determine_type tsim = some t ∧
      r = { intents := detect_intents isim (mkRat 1 4)
            entities := extract_entities_regex q
            category := t.category
            type := t.type
            type_name := t.type_name
            department := t.department
            confidence := t.confidence
            tags := (detect_intents isim (mkRat 1 4)).map Intent.label
            routing := get_routing (detect_intents isim (mkRat 1 4)) t.category
            primary_intent := match detect_intents isim (mkRat 1 4) with
              | [] => "UNKNOWN"
              | i :: _ => i.label
            original_query := q } := by
  unfold classify_query at h
  cases hdt : determine_type tsim with
  | none =>
    rw [hdt] at h
    exact absurd h (by simp)
  | some t =>
    rw [hdt] at h
    simp only [Option.some.injEq] at h
    exact ⟨t, rfl, h.symm⟩

/-- The running best score of the `_determine_type` loop only grows and ends
at least as large as every similarity seen. -/
theorem bestTypeLoop_score_le (tsim : String → ℚ) (es : List TypeEntry)
    (best : Option TypeEntry) (score : ℚ) :
    score ≤ (bestTypeLoop tsim es best score).2 ∧
      ∀ e ∈ es, tsim e.key ≤ (bestTypeLoop tsim es best score).2 := by
  induction es generalizing best score with
  | nil => exact ⟨le_refl _, by simp⟩
  | cons e es ih =>
    by_cases h : score < tsim e.key
    · simp only [bestTypeLoop, if_pos h]
      rcases ih (some e) (tsim e.key) with ⟨h1, h2⟩
      refine ⟨le_trans (le_of_lt h) h1, ?_⟩
      intro x hx
      rcases List.mem_cons.mp hx with rfl | hx
      · exact h1
      · exact h2 x hx
    · simp only [bestTypeLoop, if_neg h]
      rcases ih best score with ⟨h1, h2⟩
      refine ⟨h1, ?_⟩
      intro x hx
      rcases List.mem_cons.mp hx with rfl | hx
      · exact le_trans (le_of_not_lt h) h1
      · exact h2 x hx

/-- The `_determine_type` loop either leaves its accumulator untouched or
ends on some scanned entry whose similarity strictly improved on the initial
score. -/
theorem bestTypeLoop_cases (tsim : String → ℚ) (es : List TypeEntry)
    (best : Option TypeEntry) (score : ℚ) :
    bestTypeLoop tsim es best score = (best, score) ∨
      ∃ e ∈ es, bestTypeLoop tsim es best score = (some e, tsim e.key) ∧
        score < tsim e.key := by
  induction es generalizing best score with
  | nil => exact Or.inl rfl
  | cons e es ih =>
    by_cases h : score < tsim e.key
    · simp only [bestTypeLoop, if_pos h]
      rcases ih (some e) (tsim e.key) with h1 | ⟨x, hx, h1, h2⟩
      · exact Or.inr ⟨e, List.mem_cons_self e es, h1, h⟩
      · exact Or.inr ⟨x, List.mem_cons_of_mem e hx, h1, lt_trans h h2⟩
    · simp only [bestTypeLoop, if_neg h]
      rcases ih best score with h1 | ⟨x, hx, h1, h2⟩
      · exact Or.inl h1
      · exact Or.inr ⟨x, List.mem_cons_of_mem e hx, h1, h2⟩

/-- Intent detection only reads the similarities of catalog keys. -/
theorem preIntents_congr (isim isim2 : String → ℚ) (t : ℚ) (ls : List String)
    (h : ∀ k ∈ ls, isim k = isim2 k) :
    (ls.filter (fun k => decide (t ≤ isim k))).map
        (fun k => Intent.mk k (round2 (isim k))) =
      (ls.filter (fun k => decide (t ≤ isim2 k))).map
        (fun k => Intent.mk k (round2 (isim2 k))) := by
  induction ls with
  | nil => rfl
  | cons a as ih =>
    have ha := h a (List.mem_cons_self a as)
    have ih2 := ih (fun k hk => h k (List.mem_cons_of_mem a hk))
    rw [List.filter_cons, List.filter_cons, ha]
    by_cases hc : t ≤ isim2 a
    · simp [hc, ha, ih2]
    · simp [hc, ih2]

/-- Type resolution only reads the similarities of catalog keys. -/
theorem bestTypeLoop_congr (tsim tsim2 : String → ℚ) (es : List TypeEntry)
    (h : ∀ e ∈ es, tsim e.key = tsim2 e.key) (best : Option TypeEntry)
    (score : ℚ) :
    bestTypeLoop tsim es best score = bestTypeLoop tsim2 es best score := by
  induction es generalizing best score with
  | nil => rfl
  | cons e es ih =>
    have he := h e (List.mem_cons_self e es)
    have h2 := fun x hx => h x (List.mem_cons_of_mem e hx)
    simp only [bestTypeLoop, he]
    by_cases hc : score < tsim2 e.key
    · simp only [if_pos hc]
      exact ih h2 _ _
    · simp only [if_neg hc]
      exact ih h2 _ _

/-- A truthy string filter of the store reads: when the argument is a
nonempty string, passing it forces equality. -/
theorem truthyStringFilter (d x : String) (hd : d ≠ "")
    (h : (if d == "" then true else x == d) = true) : x = d := by
  have hde : (d == "") = false := by
    simp [hd]
  rw [hde] at h
  simpa using h

/-!
Claim theorems.
-/

/-- Claim C1, counterexample: the claim says `classify(q).type` is always a
valid Type Catalog key with no minimum-similarity threshold and no "no match"
case.  In the code, `best_score` starts at `0` and an entry is adopted only
when its similarity is strictly greater, so in a similarity environment where
every catalog entry scores at or below zero (cosine similarities live in the
interval from -1 to 1) `best_match` stays `None` and `_determine_type`
crashes instead of producing any type: `classify_query` yields no result at
all here. -/
theorem classify_type_counterexample :
    classify_query (fun _ => mkRat 1 2) (fun _ => mkRat (-1) 2) "network down" =
      none := by
  decide

/-- Claim C1, amended: whenever at least one Type Catalog entry has strictly
positive similarity, `classify(q)` succeeds and its `type` field is the bare
type key of a catalog entry of maximal similarity (a valid key of
`QUERY_TYPES`/`GRIEVANCE_TYPES`, never empty or null); the arg-max carries an
implicit strict threshold at 0 from the initial best score. -/
theorem classify_type_valid (isim tsim : String → ℚ) (q : String)
    (h : ∃ e ∈ type_catalog, 0 < tsim e.key) :
    ∃ r, classify_query isim tsim q = some r ∧
      ∃ e ∈ type_catalog, r.type = e.type ∧ r.category = e.category ∧
        r.type_name = e.name ∧ r.department = e.department ∧
        r.confidence = round2 (tsim e.key) ∧
        r.type ∈ typeKeys ∧
        ∀ x ∈ type_catalog, tsim x.key ≤ tsim e.key := by
  rcases h with ⟨e0, he0, hpos⟩
  rcases bestTypeLoop_cases tsim type_catalog none 0 with h1 | ⟨e, he, h1, _⟩
  · exfalso
    have hle := (bestTypeLoop_score_le tsim type_catalog none 0).2 e0 he0
    rw [h1] at hle
    exact absurd (lt_of_lt_of_le hpos hle) (lt_irrefl 0)
  · have hdt : determine_type tsim =
        some ⟨e.category, e.type, e.name, e.department, round2 (tsim e.key)⟩ := by
      unfold determine_type
      rw [h1]
    unfold classify_query
    rw [hdt]
    refine ⟨_, rfl, e, he, rfl, rfl, rfl, rfl, rfl, ?_, ?_⟩
    · exact List.mem_map_of_mem TypeEntry.type he
    · intro x hx
      have hle := (bestTypeLoop_score_le tsim type_catalog none 0).2 x hx
      rw [h1] at hle
      exact hle

/-- Witness for the amended C1 at a concrete environment. -/
theorem classify_type_valid_witness :
    (classify_query (fun _ => 0) (fun _ => mkRat 1 2) "hello").isSome = true := by
  rcases classify_type_valid (fun _ => 0) (fun _ => mkRat 1 2) "hello"
      ⟨⟨"QUERY_BALANCE_CHECK", "QUERY", "BALANCE_CHECK", "Balance Check",
        "Customer Support", none⟩, by decide, by decide⟩ with ⟨r, hr, -⟩
  rw [hr]
  rfl

/-- Claim C2: `classify(q).intents` holds exactly the catalog intents whose
raw similarity is at least 0.25, each with confidence the rounded similarity;
it is sorted by confidence descending; and ties keep the catalog declaration
order of the pre-sort list `preIntents` (stability of the sort). -/
theorem detect_intents_spec (isim : String → ℚ) :
    (∀ e : Intent, e ∈ detect_intents isim (mkRat 1 4) ↔
      ∃ k, k ∈ intentKeys ∧ mkRat 1 4 ≤ isim k ∧
        e = Intent.mk k (round2 (isim k))) ∧
    (detect_intents isim (mkRat 1 4)).Pairwise
      (fun a b => b.confidence ≤ a.confidence) ∧
    (∀ c : ℚ, (detect_intents isim (mkRat 1 4)).filter
        (fun e => decide (e.confidence = c)) =
      (preIntents isim (mkRat 1 4)).filter
        (fun e => decide (e.confidence = c))) := by
  refine ⟨?_, pairwise_sortDescBy _ _, fun c => sortDescBy_stable _ _ c⟩
  intro e
  rw [detect_intents, mem_sortDescBy]
  simp only [preIntents, List.mem_map, List.mem_filter, decide_eq_true_eq]
  constructor
  · rintro ⟨k, ⟨hk, hth⟩, rfl⟩
    exact ⟨k, hk, hth, rfl⟩
  · rintro ⟨k, hk, hth, rfl⟩
    exact ⟨k, ⟨hk, hth⟩, rfl⟩

/-- Witness for C2 at a concrete environment: the membership
characterization places the over-threshold intent in the result. -/
theorem detect_intents_spec_witness :
    Intent.mk "NETWORK_ISSUE" (mkRat 1 2) ∈
      detect_intents (fun k => if k = "NETWORK_ISSUE" then mkRat 1 2 else 0)
        (mkRat 1 4) :=
  ((detect_intents_spec
      (fun k => if k = "NETWORK_ISSUE" then mkRat 1 2 else 0)).1 _).mpr
    ⟨"NETWORK_ISSUE", by decide, by decide, by decide⟩

/-- Claim C3: `create_record` inserts exactly one row, chosen by the
classification's category: for `GRIEVANCE` one grievance row with status
`open` and an untouched queries table, for `QUERY` one queries row with
status `resolved` and an untouched grievances table; in every case the total
number of stored records grows by exactly one. -/
theorem create_record_spec (st : Store) (cid uid : Nat) (ph : String)
    (cr : ClassificationResult) :
    (cr.category = "GRIEVANCE" →
      (create_record st cid uid ph cr).1.grievances =
        st.grievances ++ [⟨cid, uid, ph, cr.type_name, cr.department,
          cr.original_query, cr.entities, "open"⟩] ∧
      (create_record st cid uid ph cr).1.queries = st.queries) ∧
    (cr.category = "QUERY" →
      (create_record st cid uid ph cr).1.queries =
        st.queries ++ [⟨cid, uid, ph, cr.type_name, cr.department,
          cr.original_query, cr.entities, "resolved"⟩] ∧
      (create_record st cid uid ph cr).1.grievances = st.grievances) ∧
    (create_record st cid uid ph cr).1.queries.length +
        (create_record st cid uid ph cr).1.grievances.length =
      st.queries.length + st.grievances.length + 1 := by
  by_cases h : cr.category = "GRIEVANCE"
  · refine ⟨fun _ => ?_, fun hq => absurd (h.symm.trans hq) (by decide), ?_⟩
    · simp [create_record, h]
    · simp [create_record, h]
      omega
  · refine ⟨fun hg => absurd hg h, fun _ => ?_, ?_⟩
    · simp [create_record, h]
    · simp [create_record, h]
      omega

def bagNone : EntityBag := ⟨none, none, none, none, none⟩

def crGrievance : ClassificationResult :=
  ⟨[], bagNone, "GRIEVANCE", "SLOW_INTERNET", "Slow Internet Speed",
   "Network Operations", mkRat 3 4, [], "general_support", "UNKNOWN",
   "net slow"⟩

def crQuery : ClassificationResult :=
  ⟨[], bagNone, "QUERY", "BALANCE_CHECK", "Balance Check", "Customer Support",
   mkRat 3 4, [], "general_support", "UNKNOWN", "balance"⟩

def emptyStore : Store := ⟨[], []⟩

/-- Witness for C3 on a grievance and on a query classification. -/
theorem create_record_spec_witness :
    (create_record emptyStore 1 2 "p" crGrievance).1.grievances =
      [⟨1, 2, "p", "Slow Internet Speed", "Network Operations", "net slow",
        bagNone, "open"⟩] ∧
    (create_record emptyStore 1 2 "p" crGrievance).1.queries = [] ∧
    (create_record emptyStore 1 2 "p" crQuery).1.queries =
      [⟨1, 2, "p", "Balance Check", "Customer Support", "balance", bagNone,
        "resolved"⟩] ∧
    (create_record emptyStore 1 2 "p" crQuery).1.grievances = [] := by
  have hg := (create_record_spec emptyStore 1 2 "p" crGrievance).1 rfl
  have hq := (create_record_spec emptyStore 1 2 "p" crQuery).2.1 rfl
  exact ⟨hg.1, hg.2, hq.1, hq.2⟩

/-- Claim C4: when no intent survives the threshold, the classification has
`primary_intent = "UNKNOWN"`, empty `tags`, and the generic destination
`"general_support"`; and the same generic destination is returned whenever
the primary intent label is absent from the static routing table. -/
theorem classify_unknown_default (isim tsim : String → ℚ) (q : String)
    (r : ClassificationResult) (h : classify_query isim tsim q = some r) :
    (r.intents = [] →
      r.primary_intent = "UNKNOWN" ∧ r.tags = [] ∧
        r.routing = "general_support") ∧
    (∀ i rest, r.intents = i :: rest → routing_map.lookup i.label = none →
      r.routing = "general_support") := by
  rcases classify_query_some _ _ _ _ h with ⟨t, _, rfl⟩
  constructor
  · intro hnil
    dsimp only at hnil ⊢
    rw [hnil]
    exact ⟨rfl, rfl, rfl⟩
  · intro i rest hcons hlook
    dsimp only at hcons ⊢
    rw [hcons, get_routing, hlook]
    rfl

def rUnknown : ClassificationResult :=
  ⟨[], bagNone, "QUERY", "BALANCE_CHECK", "Balance Check", "Customer Support",
   mkRat 1 2, [], "general_support", "UNKNOWN", "hi"⟩

/-- Witness for C4: a concrete under-threshold environment reaches the
`UNKNOWN` defaults. -/
theorem classify_unknown_default_witness :
    rUnknown.primary_intent = "UNKNOWN" ∧ rUnknown.tags = [] ∧
      rUnknown.routing = "general_support" :=
  (classify_unknown_default (fun _ => 0) (fun _ => mkRat 1 2) "hi" rUnknown
    (by decide)).1 rfl

/-- Claim C5: entity extraction is total (it returns a bag, never an error),
holds at most one value per kind by construction, and is fully independent of
intent and type resolution: any two successful classifications of the same
query agree on `entities`, which equal the pure extraction pass on the query
text. -/
theorem entities_independent (isim tsim isim2 tsim2 : String → ℚ) (q : String)
    (r r2 : ClassificationResult) (h : classify_query isim tsim q = some r)
    (h2 : classify_query isim2 tsim2 q = some r2) :
    r.entities = r2.entities ∧ r.entities = extract_entities_regex q := by
  rcases classify_query_some _ _ _ _ h with ⟨t, _, rfl⟩
  rcases classify_query_some _ _ _ _ h2 with ⟨t2, _, rfl⟩
  exact ⟨rfl, rfl⟩

/-- Witness for C5 on two different similarity environments. -/
theorem entities_independent_witness :
    ∃ r r2 : ClassificationResult,
      classify_query (fun _ => 0) (fun _ => mkRat 1 2) "internet slow" =
        some r ∧
      classify_query (fun _ => mkRat 1 2) (fun _ => mkRat 1 3)
        "internet slow" = some r2 ∧
      r.entities = r2.entities ∧
      r.entities = extract_entities_regex "internet slow" := by
  have hs1 : (classify_query (fun _ => 0) (fun _ => mkRat 1 2)
      "internet slow").isSome = true := by decide
  have hs2 : (classify_query (fun _ => mkRat 1 2) (fun _ => mkRat 1 3)
      "internet slow").isSome = true := by decide
  obtain ⟨r, hr⟩ := Option.isSome_iff_exists.mp hs1
  obtain ⟨r2, hr2⟩ := Option.isSome_iff_exists.mp hs2
  exact ⟨r, r2, hr, hr2, entities_independent _ _ _ _ _ r r2 hr hr2⟩

/-- Claim C6: the two extraction round-trips from the spec, on concrete
inputs: the rupee-symbol amount, and the service/issue pair with the
transliterated issue keyword. -/
theorem extract_entities_concrete :
    extract_entities_regex "₹500 ka recharge" =
      { amount := some "500", service := none, issue := none,
        plan_name := none, timeframe := none } ∧
    extract_entities_regex "internet nahi chal raha" =
      { amount := none, service := some "internet",
        issue := some "nahi chal raha", plan_name := none,
        timeframe := none } := by
  exact ⟨by decide, by decide⟩

/-- Claim C7: `get_grievances` and `get_queries` are conjunctive filtered
reads — every returned row satisfies each supplied (nonempty) filter, the
result is ordered by creation time descending, and membership is exactly
join membership plus the conjunctive keep predicate (so an omitted filter
excludes nothing). -/
theorem get_records_filter_spec (gs : List GrievanceRow) (qs : List QueryRow)
    (us : List UserRow) (dept : Option String) (sd ed : Option Int)
    (stt : Option String) :
    (∀ v ∈ get_grievances gs us dept sd ed stt,
      (∀ d, dept = some d → d ≠ "" → v.department = d) ∧
      (∀ a, sd = some a → a ≤ v.created_at) ∧
      (∀ b, ed = some b → v.created_at ≤ b) ∧
      (∀ s, stt = some s → s ≠ "" → v.status = s)) ∧
    (get_grievances gs us dept sd ed stt).Pairwise
      (fun a b => b.created_at ≤ a.created_at) ∧
    (∀ v, v ∈ get_grievances gs us dept sd ed stt ↔
      v ∈ grievanceJoin gs us ∧ grievanceKeep dept sd ed stt v = true) ∧
    (∀ v ∈ get_queries qs us dept sd ed stt,
      (∀ d, dept = some d → d ≠ "" → v.department = d) ∧
      (∀ a, sd = some a → a ≤ v.created_at) ∧
      (∀ b, ed = some b → v.created_at ≤ b) ∧
      (∀ s, stt = some s → s ≠ "" → v.status = s)) ∧
    (get_queries qs us dept sd ed stt).Pairwise
      (fun a b => b.created_at ≤ a.created_at) ∧
    (∀ v, v ∈ get_queries qs us dept sd ed stt ↔
      v ∈ queryJoin qs us ∧ queryKeep dept sd ed stt v = true) := by
  have hmemG : ∀ v, v ∈ get_grievances gs us dept sd ed stt ↔
      v ∈ grievanceJoin gs us ∧ grievanceKeep dept sd ed stt v = true := by
    intro v
    rw [get_grievances, mem_sortDescBy, List.mem_filter]
  have hmemQ : ∀ v, v ∈ get_queries qs us dept sd ed stt ↔
      v ∈ queryJoin qs us ∧ queryKeep dept sd ed stt v = true := by
    intro v
    rw [get_queries, mem_sortDescBy, List.mem_filter]
  refine ⟨?_, pairwise_sortDescBy _ _, hmemG, ?_, pairwise_sortDescBy _ _,
    hmemQ⟩
  · intro v hv
    have hk := ((hmemG v).mp hv).2
    rw [grievanceKeep.eq_def] at hk
    simp only [Bool.and_eq_true] at hk
    obtain ⟨⟨⟨h1, h2⟩, h3⟩, h4⟩ := hk
    refine ⟨?_, ?_, ?_, ?_⟩
    · rintro d rfl hd
      exact truthyStringFilter d v.department hd h1
    · rintro a rfl
      exact of_decide_eq_true h2
    · rintro b rfl
      exact of_decide_eq_true h3
    · rintro s rfl hs
      exact truthyStringFilter s v.status hs h4
  · intro v hv
    have hk := ((hmemQ v).mp hv).2
    rw [queryKeep.eq_def] at hk
    simp only [Bool.and_eq_true] at hk
    obtain ⟨⟨⟨h1, h2⟩, h3⟩, h4⟩ := hk
    refine ⟨?_, ?_, ?_, ?_⟩
    · rintro d rfl hd
      exact truthyStringFilter d v.department hd h1
    · rintro a rfl
      exact of_decide_eq_true h2
    · rintro b rfl
      exact of_decide_eq_true h3
    · rintro s rfl hs
      exact truthyStringFilter s v.status hs h4

def gRowNet : GrievanceRow :=
  ⟨1, 7, "Network Connectivity Issue", "Network Operations", "no net", "open",
   100, "e1"⟩

def gRowBill : GrievanceRow :=
  ⟨2, 7, "Billing Complaint", "Billing Department", "bill", "open", 200, "e2"⟩

def uRowAsha : UserRow := ⟨7, "Asha", "999"⟩

/-- Witness for C7 on a concrete two-row table with a department and a status
filter. -/
theorem get_records_filter_spec_witness :
    ∃ v, v ∈ get_grievances [gRowNet, gRowBill] [uRowAsha]
        (some "Network Operations") none none (some "open") ∧
      v.department = "Network Operations" ∧ v.status = "open" := by
  have h := (get_records_filter_spec [gRowNet, gRowBill] [] [uRowAsha]
    (some "Network Operations") none none (some "open")).1
  refine ⟨⟨1, "Network Connectivity Issue", "Network Operations", "no net",
    "open", 100, "e1", "Asha", "999"⟩, by decide, ?_, ?_⟩
  · exact (h _ (by decide)).1 _ rfl (by decide)
  · exact (h _ (by decide)).2.2.2 _ rfl (by decide)

/-- Claim C8: classification is deterministic and side-effect free — it is a
pure function of the query text and of the similarities of the catalog
entries, so two calls with the same query and unchanged catalog similarities
return identical results. -/
theorem classify_deterministic (isim isim2 tsim tsim2 : String → ℚ)
    (q : String) (h1 : ∀ k ∈ intentKeys, isim k = isim2 k)
    (h2 : ∀ e ∈ type_catalog, tsim e.key = tsim2 e.key) :
    classify_query isim tsim q = classify_query isim2 tsim2 q := by
  have hd : detect_intents isim (mkRat 1 4) =
      detect_intents isim2 (mkRat 1 4) := by
    unfold detect_intents preIntents
    rw [preIntents_congr isim isim2 _ _ h1]
  have ht : determine_type tsim = determine_type tsim2 := by
    unfold determine_type
    rw [bestTypeLoop_congr tsim tsim2 _ h2]
  unfold classify_query
  rw [hd, ht]

/-- Witness for C8: two syntactically different environments that agree on
all catalog keys classify identically. -/
theorem classify_deterministic_witness :
    classify_query (fun _ => mkRat 1 3) (fun _ => mkRat 1 2) "hello there" =
      classify_query (fun k => if k = "ZZZ" then 0 else mkRat 1 3)
        (fun k => if k = "ZZZ" then 0 else mkRat 1 2) "hello there" :=
  classify_deterministic _ _ _ _ "hello there" (by decide) (by decide)

/-- Claim C9: when the detected intents are non-empty and the top
(highest-confidence) label is `NETWORK_ISSUE`, the routing field resolves to
`"technical_support"`. -/
theorem classify_network_routing (isim tsim : String → ℚ) (q : String)
    (r : ClassificationResult) (h : classify_query isim tsim q = some r)
    (i : Intent) (rest : List Intent) (hi : r.intents = i :: rest)
    (hl : i.label = "NETWORK_ISSUE") :
    r.routing = "technical_support" := by
  rcases classify_query_some _ _ _ _ h with ⟨t, _, rfl⟩
  dsimp only at hi ⊢
  rw [hi, get_routing, hl]
  rfl

def rNetwork : ClassificationResult :=
  ⟨[⟨"NETWORK_ISSUE", mkRat 1 2⟩], bagNone, "QUERY", "BALANCE_CHECK",
   "Balance Check", "Customer Support", mkRat 1 2, ["NETWORK_ISSUE"],
   "technical_support", "NETWORK_ISSUE", "net"⟩

/-- Witness for C9 at a concrete environment whose only surviving intent is
`NETWORK_ISSUE`. -/
theorem classify_network_routing_witness :
    rNetwork.routing = "technical_support" :=
  classify_network_routing
    (fun k => if k = "NETWORK_ISSUE" then mkRat 1 2 else 0)
    (fun _ => mkRat 1 2) "net" rNetwork (by decide)
    ⟨"NETWORK_ISSUE", mkRat 1 2⟩ [] rfl rfl

/-- Claim C10: every classification result is internally consistent — `tags`
is exactly the label sequence of `intents`, and `primary_intent` is the label
of the first intent when there is one and `"UNKNOWN"` otherwise. -/
theorem classify_result_consistent (isim tsim : String → ℚ) (q : String)
    (r : ClassificationResult) (h : classify_query isim tsim q = some r) :
    r.tags = r.intents.map Intent.label ∧
    (r.intents = [] → r.primary_intent = "UNKNOWN") ∧
    (∀ i rest, r.intents = i :: rest → r.primary_intent = i.label) := by
  rcases classify_query_some _ _ _ _ h with ⟨t, _, rfl⟩
  refine ⟨rfl, ?_, ?_⟩
  · intro hnil
    dsimp only at hnil ⊢
    rw [hnil]
  · intro i rest hcons
    dsimp only at hcons ⊢
    rw [hcons]

/-- Witness for C10 at a concrete environment. -/
theorem classify_result_consistent_witness :
    ∃ r, classify_query (fun _ => 0) (fun _ => mkRat 2 3) "hey" = some r ∧
      r.tags = r.intents.map Intent.label := by
  have hs : (classify_query (fun _ => 0) (fun _ => mkRat 2 3)
      "hey").isSome = true := by decide
  obtain ⟨r, hr⟩ := Option.isSome_iff_exists.mp hs
  exact ⟨r, hr, (classify_result_consistent _ _ _ r hr).1⟩
